import Mathlib

/-!
Shallow embedding of the attendance-app client core
(`services/api.ts` — three concatenated variants A (backend, query-params),
B (mock), C (backend, multipart + classroom parsing) — `services/auth.ts`
(mock auth) and the real auth service, plus `config/api.ts`).

The device key-value store (`AsyncStorage`) is modelled as a record of typed
cells.  A cell is `absent` (key never written / removed), `stored v`
(a readable value), or `corrupt` (the read throws or the stored string fails
`JSON.parse`); writes always succeed.  Ambient nondeterminism (clock, random
draws, HTTP responses) is passed in as explicit parameters.  Machine numbers
appearing here are non-negative counts, modelled as `Nat`; the one floating
point expression (`Math.round(n * 0.85)`) is modelled over exact rationals.
-/

set_option maxRecDepth 4000

/-- State of one key of the device key-value store: missing, holding a
readable value, or unreadable (read throws / JSON decode fails). -/
inductive Cell (α : Type) where
  | absent : Cell α
  | stored (v : α) : Cell α
  | corrupt : Cell α
  deriving DecidableEq, Repr

/-- Attendance status of one student, `'present' | 'absent'` in the source. -/
inductive AttStatus where
  | present : AttStatus
  | absent : AttStatus
  deriving DecidableEq, Repr

/-- `Student` interface of `services/api.ts`. -/
structure Student where
  id : String
  name : String
  rollNo : String
  classroom : String
  videoUri : Option String
  createdAt : String
  deriving DecidableEq, Repr

/-- `AttendanceResult` interface of `services/api.ts`. -/
structure AttendanceResult where
  rollNo : String
  name : String
  status : AttStatus
  deriving DecidableEq, Repr

/-- `AttendanceRecord` interface of `services/api.ts` (with both the legacy
single-photo field and the multi-photo field). -/
structure AttendanceRecord where
  id : String
  classroom : String
  date : String
  photoUri : Option String
  photoUris : Option (List String)
  results : List AttendanceResult
  present : Nat
  absent : Nat
  total : Nat
  deriving DecidableEq, Repr

/-- `User` interface of the auth services (`accessToken` is optional; the
mock variant never sets it). -/
structure User where
  username : String
  name : String
  id : String
  accessToken : Option String
  deriving DecidableEq, Repr

/-- The device key-value store: the four fixed keys used by the app
(`@attendance_app_students`, `@attendance_app_attendance`,
`@attendance_app_auth`, `@attendance_app_token`). -/
structure Store where
  students : Cell (List Student)
  attendance : Cell (List AttendanceRecord)
  authUser : Cell User
  authToken : Cell String
  deriving DecidableEq, Repr

/-- A store with no keys written. -/
def emptyStore : Store :=
  { students := Cell.absent, attendance := Cell.absent,
    authUser := Cell.absent, authToken := Cell.absent }

/-- Reading a JSON-encoded list cell, `str ? JSON.parse(str) : []`:
`none` models the read/parse throwing, `some []` a missing key. -/
def readListCell {α : Type} : Cell (List α) → Option (List α)
  | Cell.absent => some []
  | Cell.stored l => some l
  | Cell.corrupt => none

/-! ### Classroom label parser

Both backend-variant-C operations parse the user-typed classroom label with
`classroom.match(/^([0-9]+)([A-Z])$/)`.  Characters are modelled as `Char`
compared by code point. -/

/-- Character class `[0-9]` of the classroom regex (code points 48–57). -/
def isDigitChar (c : Char) : Bool := 48 ≤ c.toNat && c.toNat ≤ 57

/-- Character class `[A-Z]` of the classroom regex (code points 65–90). -/
def isUpperChar (c : Char) : Bool := 65 ≤ c.toNat && c.toNat ≤ 90

/-- Greedy run of `[0-9]+`: splits a string into its maximal leading digit
run and the remainder. -/
def takeDigitsRun : List Char → List Char × List Char
  | [] => ([], [])
  | c :: cs =>
    if isDigitChar c then
      let p := takeDigitsRun cs
      (c :: p.1, p.2)
    else ([], c :: cs)

/-- `label.match(/^([0-9]+)([A-Z])$/)` on a character sequence: `some`
carries capture groups 1 (digit run) and 2 (the single uppercase letter). -/
def matchClassroomL (s : List Char) : Option (List Char × Char) :=
  match takeDigitsRun s with
  | (ds, [c]) =>
    if ds.isEmpty then none
    else if isUpperChar c then some (ds, c) else none
  | _ => none

/-- The classroom parse on `String`s as used by `registerStudent` and
`processAttendance` (variant C): yields `(standard, division)`. -/
def matchClassroom (s : String) : Option (String × String) :=
  (matchClassroomL s.toList).map (fun p => (String.mk p.1, String.mk [p.2]))

theorem takeDigitsRun_append (s : List Char) :
    (takeDigitsRun s).1 ++ (takeDigitsRun s).2 = s := by
  induction s with
  | nil => rfl
  | cons c cs ih =>
    simp only [takeDigitsRun]
    by_cases h : isDigitChar c
    · simp [h, ih]
    · simp [h]

theorem takeDigitsRun_all_digits (s : List Char) :
    (takeDigitsRun s).1.all isDigitChar = true := by
  induction s with
  | nil => rfl
  | cons c cs ih =>
    simp only [takeDigitsRun]
    by_cases h : isDigitChar c
    · simp [h, ih]
    · simp [h]

theorem takeDigitsRun_rest_head (s : List Char) (c : Char) (r : List Char) :
    (takeDigitsRun s).2 = c :: r → isDigitChar c = false := by
  induction s with
  | nil => intro h; simp [takeDigitsRun] at h
  | cons a as ih =>
    simp only [takeDigitsRun]
    by_cases h : isDigitChar a
    · simp only [h, if_pos]
      exact ih
    · simp only [h, if_neg, Bool.false_eq_true, not_false_iff]
      intro he
      cases he
      simpa using h

theorem takeDigitsRun_of_run (ds rest : List Char)
    (hds : ds.all isDigitChar = true)
    (hrest : rest = [] ∨ ∃ c r, rest = c :: r ∧ isDigitChar c = false) :
    takeDigitsRun (ds ++ rest) = (ds, rest) := by
  induction ds with
  | nil =>
    rcases hrest with h | ⟨c, r, hr, hc⟩
    · simp [h, takeDigitsRun]
    · simp [hr, takeDigitsRun, hc]
  | cons a as ih =>
    simp only [List.all_cons, Bool.and_eq_true] at hds
    simp [takeDigitsRun, hds.1, ih hds.2]

theorem isUpperChar_not_digit (c : Char) :
    isUpperChar c = true → isDigitChar c = false := by
  simp only [isUpperChar, isDigitChar, Bool.and_eq_true, decide_eq_true_eq,
    Bool.and_eq_false_iff, decide_eq_false_iff_not, not_le]
  omega

/-! ### Shared read operations (`getStudents`, `getAttendanceHistory`)

These functions are textually identical in all three `api.ts` variants:
read the JSON list from the store, optionally filter case-insensitively by
classroom, and on any read/parse error log and return `[]`. -/

/-- `ApiService.getStudents(classroom?)`: local student cache read with
optional case-insensitive classroom filter; errors yield `[]`. -/
def getStudents (st : Store) (classroom : Option String) : List Student :=
  match readListCell st.students with
  | none => []
  | some students =>
    match classroom with
    | none => students
    | some c => students.filter (fun s => s.classroom.toLower == c.toLower)

/-- `ApiService.getAttendanceHistory(classroom?, limit = 20)`: attendance
cache read, optional case-insensitive classroom filter, then
`slice(0, limit)`; errors yield `[]`. -/
def getAttendanceHistory (st : Store) (classroom : Option String)
    (limit : Nat) : List AttendanceRecord :=
  match readListCell st.attendance with
  | none => []
  | some records =>
    let filtered :=
      match classroom with
      | none => records
      | some c => records.filter (fun r => r.classroom.toLower == c.toLower)
    filtered.take limit

/-! ### Write-through helpers -/

/-- `ApiService.storeStudentLocally` (backend variants): read the cached
list via `getStudents()`, append, re-persist the whole list. -/
def storeStudentLocally (st : Store) (stu : Student) : Store :=
  let existing := getStudents st none
  { st with students := Cell.stored (existing ++ [stu]) }

/-- `ApiService.storeAttendanceRecordLocally` (backend variants A and C):
reads the existing history through `getAttendanceHistory()` — with its
default `limit = 20` — prepends the new record, truncates at 100
(`splice(100)`), and re-persists. -/
def storeAttendanceRecordLocally (st : Store) (r : AttendanceRecord) : Store :=
  let updated := r :: getAttendanceHistory st none 20
  { st with attendance :=
      Cell.stored (if updated.length > 100 then updated.take 100 else updated) }

/-- `ApiService.saveAttendanceRecord` (mock variant B): reads the raw stored
history, `unshift`s the new record, truncates at 50 (`splice(50)`), and
re-persists; a read/parse error is caught and nothing is written. -/
def saveAttendanceRecordMock (st : Store) (r : AttendanceRecord) : Store :=
  match readListCell st.attendance with
  | none => st
  | some records =>
    let updated := r :: records
    { st with attendance :=
        Cell.stored (if updated.length > 50 then updated.take 50 else updated) }

/-! ### registerStudent variants -/

/-- `status: 'success' | 'error'` of the register-student response JSON. -/
inductive RespStatus where
  | success : RespStatus
  | error : RespStatus
  deriving DecidableEq, Repr

/-- `RegisterStudentResponse` body (the fields the client inspects). -/
structure RegisterStudentResponse where
  status : RespStatus
  message : String
  deriving DecidableEq, Repr

/-- Result shape of the backend `registerStudent` variants. -/
structure RegResult where
  success : Bool
  student : Option Student
  message : Option String
  response : Option RegisterStudentResponse
  deriving DecidableEq, Repr

/-- Result shape of the mock `registerStudent`. -/
structure MockRegResult where
  success : Bool
  student : Option Student
  message : Option String
  deriving DecidableEq, Repr

/-- `responseData.message || 'fallback'`: JS falsy-string coalescing. -/
def messageOr (m fallback : String) : String :=
  if m = "" then fallback else m

/-- Backend variant A `ApiService.registerStudent` (`standard`/`division`
supplied separately, parameters sent as query string).  `httpOk`/`resp`
model the server's answer; the result carries the response state, the new
store, and the number of HTTP requests issued. -/
def registerStudentA (st : Store) (name rollNo standard division : String)
    (videoUri : Option String) (httpOk : Bool)
    (resp : RegisterStudentResponse) (nowId nowDate : String) :
    RegResult × Store × Nat :=
  match videoUri with
  | none =>
    ({ success := false, student := none,
       message := some "Video is required for student registration",
       response := none }, st, 0)
  | some v =>
    if httpOk && (resp.status == RespStatus.success) then
      let newStudent : Student :=
        { id := nowId, name := name, rollNo := rollNo,
          classroom := standard ++ division, videoUri := some v,
          createdAt := nowDate }
      ({ success := true, student := some newStudent,
         message := some resp.message, response := some resp },
       storeStudentLocally st newStudent, 1)
    else
      ({ success := false, student := none,
         message := some (messageOr resp.message "Failed to register student"),
         response := none }, st, 1)

/-- Backend variant C `ApiService.registerStudent` (single `classroom`
label parsed by the classroom regex before the network call). -/
def registerStudentC (st : Store) (name rollNo classroom : String)
    (videoUri : Option String) (httpOk : Bool)
    (resp : RegisterStudentResponse) (nowId nowDate : String) :
    RegResult × Store × Nat :=
  match videoUri with
  | none =>
    ({ success := false, student := none,
       message := some "Video is required for student registration",
       response := none }, st, 0)
  | some v =>
    match matchClassroom classroom with
    | none =>
      ({ success := false, student := none,
         message := some "Classroom format should be like \"5A\", \"10B\", etc.",
         response := none }, st, 0)
    | some _ =>
      if httpOk && (resp.status == RespStatus.success) then
        let newStudent : Student :=
          { id := nowId, name := name, rollNo := rollNo,
            classroom := classroom, videoUri := some v, createdAt := nowDate }
        ({ success := true, student := some newStudent,
           message := some resp.message, response := some resp },
         storeStudentLocally st newStudent, 1)
      else
        ({ success := false, student := none,
           message := some (messageOr resp.message "Failed to register student"),
           response := none }, st, 1)

/-- Mock variant B `ApiService.registerStudent`: purely local, with a
duplicate (rollNo, classroom) check; a storage read/parse error is caught
and reported as a generic failure. -/
def registerStudentMock (st : Store) (name rollNo classroom : String)
    (videoUri : Option String) (nowId nowDate : String) :
    MockRegResult × Store :=
  match readListCell st.students with
  | none =>
    ({ success := false, student := none,
       message := some "Failed to register student" }, st)
  | some students =>
    if students.any (fun s => s.rollNo == rollNo && s.classroom == classroom) then
      ({ success := false, student := none,
         message := some "Student with this roll number already exists in the class" },
       st)
    else
      let newStudent : Student :=
        { id := nowId, name := name, rollNo := rollNo, classroom := classroom,
          videoUri := videoUri, createdAt := nowDate }
      ({ success := true, student := some newStudent, message := none },
       { st with students := Cell.stored (students ++ [newStudent]) })

/-! ### processAttendance variants -/

/-- The attendance endpoint's answer as the client observes it: HTTP status
class, `content-type` header, blob bytes, and the `detail` field of a JSON
error body (when one is present). -/
structure ServerResponse where
  ok : Bool
  contentType : String
  body : List Nat
  errorDetail : Option String
  deriving DecidableEq, Repr

/-- Result shape of the backend `processAttendance` variants. -/
structure ProcessResult where
  success : Bool
  results : Option (List AttendanceResult)
  message : Option String
  excelData : Option (List Nat)
  deriving DecidableEq, Repr

/-- Result shape of the mock `processAttendance`. -/
structure MockProcessResult where
  success : Bool
  results : Option (List AttendanceResult)
  message : Option String
  deriving DecidableEq, Repr

/-- Substring test: does `hay` contain `needle` as a contiguous run?
Models JS `contentType.includes('spreadsheetml')`. -/
def startsWithSeq : List Char → List Char → Bool
  | [], _ => true
  | _ :: _, [] => false
  | a :: as, b :: bs => a == b && startsWithSeq as bs

/-- Scan of `startsWithSeq` over every suffix of the haystack. -/
def containsSeq (needle : List Char) : List Char → Bool
  | [] => startsWithSeq needle []
  | c :: rest => startsWithSeq needle (c :: rest) || containsSeq needle rest

/-- The characters of `'spreadsheetml'`. -/
def spreadsheetChars : List Char := "spreadsheetml".toList

/-- `Math.round(totalStudents * 0.85)` (variant A's heuristic present
count), modelled over exact rationals: `⌊n·17/20 + 1/2⌋ = (17n+10)/20`. -/
def estPresent (n : Nat) : Nat := (17 * n + 10) / 20

/-- The `AttendanceRecord` literal built on variant A's success path:
empty results, heuristically estimated counts from the size of the locally
cached class roster. -/
def mkBackendARecord (st : Store) (standard division : String)
    (photoUris : List String) (nowId nowDate : String) : AttendanceRecord :=
  let classroomName := standard ++ division
  let totalStudents := (getStudents st (some classroomName)).length
  let estimatedPresent := estPresent totalStudents
  { id := nowId, classroom := classroomName, date := nowDate,
    photoUri := none, photoUris := some photoUris, results := [],
    present := estimatedPresent, absent := totalStudents - estimatedPresent,
    total := totalStudents }

/-- The `AttendanceRecord` literal built on variant C's success path:
empty results and all-zero counts. -/
def mkBackendCRecord (classroom : String) (photoUris : List String)
    (nowId nowDate : String) : AttendanceRecord :=
  { id := nowId, classroom := classroom, date := nowDate, photoUri := none,
    photoUris := some photoUris, results := [],
    present := 0, absent := 0, total := 0 }

/-- Backend variant A `ApiService.processAttendance` (`standard`/`division`
supplied separately; on a spreadsheet response it stores a record with
heuristic counts). -/
def processAttendanceA (st : Store) (standard division : String)
    (photoUris : List String) (resp : ServerResponse)
    (nowId nowDate : String) : ProcessResult × Store :=
  if photoUris.isEmpty then
    ({ success := false, results := none,
       message := some "At least one photo is required for attendance processing",
       excelData := none }, st)
  else if resp.ok then
    if containsSeq spreadsheetChars resp.contentType.toList then
      let record := mkBackendARecord st standard division photoUris nowId nowDate
      ({ success := true, results := some [],
         message := some "Attendance processed successfully",
         excelData := some resp.body }, storeAttendanceRecordLocally st record)
    else
      ({ success := false, results := none,
         message := some "Unexpected response format", excelData := none }, st)
  else
    ({ success := false, results := none,
       message := some ((resp.errorDetail).getD "Failed to process attendance"),
       excelData := none }, st)

/-- Backend variant C `ApiService.processAttendance` (single classroom
label, validated by the classroom regex before the network call). -/
def processAttendanceC (st : Store) (classroom : String)
    (photoUris : List String) (resp : ServerResponse)
    (nowId nowDate : String) : ProcessResult × Store :=
  if photoUris.isEmpty then
    ({ success := false, results := none,
       message := some "At least one photo is required for attendance processing",
       excelData := none }, st)
  else
    match matchClassroom classroom with
    | none =>
      ({ success := false, results := none,
         message := some "Classroom format should be like \"5A\", \"10B\", etc.",
         excelData := none }, st)
    | some _ =>
      if resp.ok then
        if containsSeq spreadsheetChars resp.contentType.toList then
          let record := mkBackendCRecord classroom photoUris nowId nowDate
          ({ success := true, results := some [],
             message := some "Attendance processed successfully",
             excelData := some resp.body },
           storeAttendanceRecordLocally st record)
        else
          ({ success := false, results := none,
             message := some "Unexpected response format", excelData := none },
           st)
      else
        ({ success := false, results := none,
           message := some ((resp.errorDetail).getD "Failed to process attendance"),
           excelData := none }, st)

/-- The simulated per-student results of the mock variant:
`Math.random() > 0.2 ? 'present' : 'absent'` per student, the random draws
supplied as an oracle indexed by position. -/
def mockResults (students : List Student) (draw : Nat → Bool) :
    List AttendanceResult :=
  students.enum.map (fun p =>
    { rollNo := p.2.rollNo, name := p.2.name,
      status := if draw p.1 then AttStatus.present else AttStatus.absent })

/-- The `AttendanceRecord` literal built on the mock variant's success
path: simulated results with counts computed by filtering them. -/
def mkMockAttendanceRecord (students : List Student) (draw : Nat → Bool)
    (photoUri : Option String) (classroom nowId nowDate : String) :
    AttendanceRecord :=
  let results := mockResults students draw
  { id := nowId, classroom := classroom, date := nowDate,
    photoUri := photoUri, photoUris := none, results := results,
    present := (results.filter (fun r => r.status == AttStatus.present)).length,
    absent := (results.filter (fun r => r.status == AttStatus.absent)).length,
    total := results.length }

/-- Mock variant B `ApiService.processAttendance`: reads the local roster
for the classroom, simulates recognition, and saves a record through the
mock (cap-50) save. -/
def processAttendanceMock (st : Store) (classroom : String)
    (photoUri : Option String) (draw : Nat → Bool)
    (nowId nowDate : String) : MockProcessResult × Store :=
  let students := getStudents st (some classroom)
  if students.isEmpty then
    ({ success := false, results := none,
       message := some "No students found for this classroom" }, st)
  else
    let record := mkMockAttendanceRecord students draw photoUri classroom nowId nowDate
    ({ success := true, results := some record.results, message := none },
     saveAttendanceRecordMock st record)

/-! ### Auth services -/

namespace AuthService

/-- `AuthService.getStoredUser`: JSON-decoded user blob; a read/parse error
is caught and yields `null`. -/
def getStoredUser (st : Store) : Option User :=
  match st.authUser with
  | Cell.stored u => some u
  | _ => none

/-- `AuthService.getStoredToken` (real-backend variant): stored bearer
token; a read error is caught and yields `null`. -/
def getStoredToken (st : Store) : Option String :=
  match st.authToken with
  | Cell.stored t => some t
  | _ => none

/-- `AuthService.isAuthenticated` (real-backend variant): user blob and
token must both be readable. -/
def isAuthenticated (st : Store) : Bool :=
  (getStoredUser st).isSome && (getStoredToken st).isSome

/-- `AuthService.logout` (real-backend variant): removes the user blob and
the token; any storage error is caught. -/
def logout (st : Store) : Store :=
  { st with authUser := Cell.absent, authToken := Cell.absent }

end AuthService

namespace AuthServiceMock

/-- `AuthService.isAuthenticated` (mock variant of `services/auth.ts`):
only the user blob is consulted. -/
def isAuthenticated (st : Store) : Bool :=
  (AuthService.getStoredUser st).isSome

/-- `AuthService.logout` (mock variant): removes only the user-blob key
(this variant has no token key). -/
def logout (st : Store) : Store :=
  { st with authUser := Cell.absent }

end AuthServiceMock

/-! ### Auxiliary facts shared by several claim theorems -/

/-- The attendance-history read never returns more than `limit` records. -/
theorem getAttendanceHistory_length_le (st : Store) (classroom : Option String)
    (limit : Nat) : (getAttendanceHistory st classroom limit).length ≤ limit := by
  unfold getAttendanceHistory
  cases readListCell st.attendance with
  | none => simp
  | some records =>
    cases classroom <;> simp [List.length_take]

/-- The backend store routine persists exactly the new record consed onto
the (limit-20) read-back: the 100-record truncation branch never fires. -/
theorem storeAttendanceRecordLocally_attendance (st : Store)
    (r : AttendanceRecord) :
    (storeAttendanceRecordLocally st r).attendance =
      Cell.stored (r :: getAttendanceHistory st none 20) := by
  have h20 := getAttendanceHistory_length_le st none 20
  simp only [storeAttendanceRecordLocally]
  rw [if_neg (by simp only [List.length_cons]; omega)]

/-- Splitting a result list by the two possible statuses partitions it. -/
theorem filter_status_split (results : List AttendanceResult) :
    (results.filter (fun r => r.status == AttStatus.present)).length +
      (results.filter (fun r => r.status == AttStatus.absent)).length =
      results.length := by
  induction results with
  | nil => rfl
  | cons r rs ih =>
    cases h : r.status <;> simp [List.filter_cons, h] <;> omega

/-- The heuristic present-count never exceeds the roster size. -/
theorem estPresent_le (n : Nat) : estPresent n ≤ n := by
  unfold estPresent
  omega

/-- A store whose two cached lists are unreadable. -/
def corruptStore : Store :=
  { students := Cell.corrupt, attendance := Cell.corrupt,
    authUser := Cell.absent, authToken := Cell.absent }

/-! ### Claim theorems -/

/-- Claim C3: for every local-store state, the real-backend
`AuthService.isAuthenticated` returns `true` exactly when both a readable
user blob and a readable auth token are stored. -/
theorem c3_isAuthenticated_iff_user_and_token (st : Store) :
    AuthService.isAuthenticated st = true ↔
      (∃ u, st.authUser = Cell.stored u) ∧
      (∃ t, st.authToken = Cell.stored t) := by
  rcases st with ⟨stu, att, au, atk⟩
  cases au <;> cases atk <;>
    simp [AuthService.isAuthenticated, AuthService.getStoredUser,
      AuthService.getStoredToken]

/-- Claim C7: `logout` is idempotent and total — from any store state, one
call leaves the session keys absent, a second call changes nothing, and in
both auth variants the operation always returns (errors are caught). -/
theorem c7_logout_idempotent (st : Store) :
    (AuthService.logout st).authUser = Cell.absent ∧
    (AuthService.logout st).authToken = Cell.absent ∧
    AuthService.logout (AuthService.logout st) = AuthService.logout st ∧
    (AuthServiceMock.logout st).authUser = Cell.absent ∧
    AuthServiceMock.logout (AuthServiceMock.logout st) =
      AuthServiceMock.logout st :=
  ⟨rfl, rfl, rfl, rfl, rfl⟩

/-- Claim C4: both backend `registerStudent` variants, called without a
video reference, fail with exactly the message
`'Video is required for student registration'`, leave the store untouched,
and issue zero HTTP requests. -/
theorem c4_register_requires_video (st : Store)
    (name rollNo standard division classroom : String) (httpOk : Bool)
    (resp : RegisterStudentResponse) (nowId nowDate : String) :
    registerStudentA st name rollNo standard division none httpOk resp
        nowId nowDate =
      ({ success := false, student := none,
         message := some "Video is required for student registration",
         response := none }, st, 0) ∧
    registerStudentC st name rollNo classroom none httpOk resp
        nowId nowDate =
      ({ success := false, student := none,
         message := some "Video is required for student registration",
         response := none }, st, 0) :=
  ⟨rfl, rfl⟩

/-- Claim C8: when the cached list's read or JSON decode fails, both
`getStudents` and `getAttendanceHistory` return `[]` for every filter
argument instead of propagating the error. -/
theorem c8_storage_error_yields_empty (st : Store)
    (classroom : Option String) (limit : Nat) :
    (st.students = Cell.corrupt → getStudents st classroom = []) ∧
    (st.attendance = Cell.corrupt →
      getAttendanceHistory st classroom limit = []) := by
  constructor
  · intro h
    simp [getStudents, h, readListCell]
  · intro h
    simp [getAttendanceHistory, h, readListCell]

/-- Concrete instance of the storage-error claim at a corrupt store. -/
theorem c8_storage_error_yields_empty_witness :
    getStudents corruptStore (some "5A") = [] ∧
    getAttendanceHistory corruptStore none 20 = [] :=
  ⟨(c8_storage_error_yields_empty corruptStore (some "5A") 20).1 rfl,
   (c8_storage_error_yields_empty corruptStore none 20).2 rfl⟩

/-- Claim C9: `getAttendanceHistory` returns at most `limit` records, and
the backend `storeAttendanceRecordLocally` — which reads back through
`getAttendanceHistory` with the default limit 20 — always persists
`record :: read-back`, a list of at most 21 entries, so its nominal
100-record truncation branch is unreachable. -/
theorem c9_history_limit_and_store_bound :
    (∀ st classroom limit,
      (getAttendanceHistory st classroom limit).length ≤ limit) ∧
    (∀ st r, (storeAttendanceRecordLocally st r).attendance =
        Cell.stored (r :: getAttendanceHistory st none 20) ∧
      (r :: getAttendanceHistory st none 20).length ≤ 21) := by
  refine ⟨getAttendanceHistory_length_le, fun st r => ?_⟩
  have h20 := getAttendanceHistory_length_le st none 20
  exact ⟨storeAttendanceRecordLocally_attendance st r,
    by simp only [List.length_cons]; omega⟩

/-- Claim C10: the duplicate-checking mock `registerStudent`, called with a
(rollNo, classroom) pair already in the stored list, fails with exactly the
duplicate message and leaves the store unchanged. -/
theorem c10_mock_register_duplicate (st : Store) (l : List Student)
    (name rollNo classroom : String) (videoUri : Option String)
    (nowId nowDate : String) (hl : st.students = Cell.stored l)
    (hdup : l.any
      (fun s => s.rollNo == rollNo && s.classroom == classroom) = true) :
    registerStudentMock st name rollNo classroom videoUri nowId nowDate =
      ({ success := false, student := none,
         message := some "Student with this roll number already exists in the class" },
       st) := by
  simp [registerStudentMock, hl, readListCell, hdup]

/-- A one-student roster used to instantiate the duplicate-check claim. -/
def dupStudent : Student :=
  { id := "1", name := "Aarav Patel", rollNo := "07", classroom := "5A",
    videoUri := none, createdAt := "t0" }

/-- A store already holding `dupStudent`. -/
def dupStore : Store := { emptyStore with students := Cell.stored [dupStudent] }

/-- Concrete instance of the duplicate-check claim. -/
theorem c10_mock_register_duplicate_witness :
    registerStudentMock dupStore "Someone Else" "07" "5A" none "2" "t1" =
      ({ success := false, student := none,
         message := some "Student with this roll number already exists in the class" },
       dupStore) :=
  c10_mock_register_duplicate dupStore [dupStudent] "Someone Else" "07" "5A"
    none "2" "t1" rfl (by decide)

/-- Claim C2: the classroom-label parse applied before the
`registerStudent` / `processAttendance` network calls succeeds — with the
full leading digit run as capture 1 (`standard`) and the single trailing
uppercase letter as capture 2 (`division`) — exactly on the strings
matching `^[0-9]+[A-Z]$`; on every other string it yields `none` (a format
error, never partial output). -/
theorem c2_classroom_parse_characterization (s ds : List Char) (c : Char) :
    matchClassroomL s = some (ds, c) ↔
      s = ds ++ [c] ∧ ds ≠ [] ∧ ds.all isDigitChar = true ∧
        isUpperChar c = true := by
  constructor
  · intro h
    unfold matchClassroomL at h
    split at h
    next ds' c' heq =>
      by_cases hde : ds'.isEmpty
      · rw [if_pos hde] at h
        exact absurd h (by simp)
      · rw [if_neg hde] at h
        by_cases hup : isUpperChar c'
        · rw [if_pos hup] at h
          have hdc : ds' = ds ∧ c' = c := by
            have := Option.some.inj h
            exact ⟨congrArg Prod.fst this, congrArg Prod.snd this⟩
          obtain ⟨rfl, rfl⟩ := hdc
          refine ⟨?_, ?_, ?_, hup⟩
          · have := takeDigitsRun_append s
            rw [heq] at this
            exact this.symm
          · intro hnil
            rw [hnil] at hde
            exact hde rfl
          · have := takeDigitsRun_all_digits s
            rw [heq] at this
            exact this
        · rw [if_neg hup] at h
          exact absurd h (by simp)
    next hne =>
      exact absurd h (by simp)
  · rintro ⟨rfl, hne, hall, hup⟩
    have hnd := isUpperChar_not_digit c hup
    have ht : takeDigitsRun (ds ++ [c]) = (ds, [c]) :=
      takeDigitsRun_of_run ds [c] hall (Or.inr ⟨c, [], rfl, hnd⟩)
    have hie : ds.isEmpty = false := by
      cases ds with
      | nil => exact absurd rfl hne
      | cons a as => rfl
    simp [matchClassroomL, ht, hie, hup]

/-- Claim C5: every `AttendanceRecord` a `processAttendance` variant
persists satisfies `total = present + absent` whenever its results list is
non-empty (the mock variant); with empty results the counts are either all
zero (backend variant C) or the heuristic roster-size estimate (backend
variant A) — never decoded from the spreadsheet. -/
theorem c5_record_count_invariant :
    (∀ students draw photoUri classroom nowId nowDate, students ≠ [] →
      (mkMockAttendanceRecord students draw photoUri classroom nowId
          nowDate).results ≠ [] ∧
      (mkMockAttendanceRecord students draw photoUri classroom nowId
          nowDate).total =
        (mkMockAttendanceRecord students draw photoUri classroom nowId
            nowDate).present +
          (mkMockAttendanceRecord students draw photoUri classroom nowId
              nowDate).absent) ∧
    (∀ st standard division photoUris nowId nowDate,
      (mkBackendARecord st standard division photoUris nowId
          nowDate).results = [] ∧
      (mkBackendARecord st standard division photoUris nowId nowDate).total =
        (getStudents st (some (standard ++ division))).length ∧
      (mkBackendARecord st standard division photoUris nowId
          nowDate).present =
        estPresent (getStudents st (some (standard ++ division))).length ∧
      (mkBackendARecord st standard division photoUris nowId
          nowDate).absent =
        (getStudents st (some (standard ++ division))).length -
          estPresent (getStudents st (some (standard ++ division))).length ∧
      (mkBackendARecord st standard division photoUris nowId
          nowDate).present +
        (mkBackendARecord st standard division photoUris nowId
            nowDate).absent =
        (mkBackendARecord st standard division photoUris nowId
            nowDate).total) ∧
    (∀ classroom photoUris nowId nowDate,
      (mkBackendCRecord classroom photoUris nowId nowDate).results = [] ∧
      (mkBackendCRecord classroom photoUris nowId nowDate).present = 0 ∧
      (mkBackendCRecord classroom photoUris nowId nowDate).absent = 0 ∧
      (mkBackendCRecord classroom photoUris nowId nowDate).total = 0) := by
  refine ⟨?_, ?_, ?_⟩
  · intro students draw photoUri classroom nowId nowDate hne
    constructor
    · simp only [mkMockAttendanceRecord, mockResults]
      intro hmap
      rw [List.map_eq_nil_iff] at hmap
      have : students = [] := by
        cases students with
        | nil => rfl
        | cons a as => simp [List.enum] at hmap
      exact hne this
    · exact (filter_status_split (mockResults students draw)).symm
  · intro st standard division photoUris nowId nowDate
    refine ⟨rfl, rfl, rfl, rfl, ?_⟩
    have hle := estPresent_le (getStudents st (some (standard ++ division))).length
    simp only [mkBackendARecord]
    omega
  · intro classroom photoUris nowId nowDate
    exact ⟨rfl, rfl, rfl, rfl⟩

/-- Concrete instance of the count invariant on a one-student mock roster. -/
theorem c5_record_count_invariant_witness :
    (mkMockAttendanceRecord [dupStudent] (fun _ => true) none "5A" "1"
        "t").results ≠ [] ∧
    (mkMockAttendanceRecord [dupStudent] (fun _ => true) none "5A" "1"
        "t").total =
      (mkMockAttendanceRecord [dupStudent] (fun _ => true) none "5A" "1"
          "t").present +
        (mkMockAttendanceRecord [dupStudent] (fun _ => true) none "5A" "1"
            "t").absent :=
  c5_record_count_invariant.1 [dupStudent] (fun _ => true) none "5A" "1" "t"
    (List.cons_ne_nil _ _)

/-- Claim C6: backend variant C `processAttendance` with a valid classroom
label, at least one photo, and a 2xx spreadsheet response with a non-empty
body returns success carrying exactly that body and persists the new record
for that label consed onto the previous history read-back (which equals the
full previous history whenever it held at most 20 records). -/
theorem c6_process_attendance_success (st : Store) (label : String)
    (photos : List String) (resp : ServerResponse) (nowId nowDate : String)
    (pr : String × String) (hparse : matchClassroom label = some pr)
    (hphotos : photos ≠ []) (hok : resp.ok = true)
    (hct : containsSeq spreadsheetChars resp.contentType.toList = true)
    (hbody : resp.body ≠ []) :
    (processAttendanceC st label photos resp nowId nowDate).1.success =
      true ∧
    (processAttendanceC st label photos resp nowId nowDate).1.excelData =
      some resp.body ∧
    resp.body ≠ [] ∧
    (processAttendanceC st label photos resp nowId nowDate).2.attendance =
      Cell.stored (mkBackendCRecord label photos nowId nowDate ::
        getAttendanceHistory st none 20) ∧
    (mkBackendCRecord label photos nowId nowDate).classroom = label ∧
    (∀ l, st.attendance = Cell.stored l → l.length ≤ 20 →
      getAttendanceHistory st none 20 = l) := by
  have hpe : photos.isEmpty = false := by
    cases photos with
    | nil => exact absurd rfl hphotos
    | cons a as => rfl
  have hct' : containsSeq spreadsheetChars resp.contentType.data = true := hct
  refine ⟨?_, ?_, hbody, ?_, rfl, ?_⟩
  · simp [processAttendanceC, hpe, hparse, hok, hct']
  · simp [processAttendanceC, hpe, hparse, hok, hct']
  · have : (processAttendanceC st label photos resp nowId nowDate).2 =
        storeAttendanceRecordLocally st
          (mkBackendCRecord label photos nowId nowDate) := by
      simp [processAttendanceC, hpe, hparse, hok, hct']
    rw [this]
    exact storeAttendanceRecordLocally_attendance st _
  · intro l hl hlen
    simp [getAttendanceHistory, readListCell, hl, List.take_of_length_le hlen]

/-- A spreadsheet answer as produced by a conforming attendance backend. -/
def xlsxResponse : ServerResponse :=
  { ok := true,
    contentType :=
      "application/vnd.openxmlformats-officedocument.spreadsheetml.sheet",
    body := [80, 75, 3, 4], errorDetail := none }

/-- Concrete instance of the `processAttendance` success scenario:
label `'5A'`, two photos, spreadsheet content-type, non-empty body. -/
theorem c6_process_attendance_success_witness :
    (processAttendanceC emptyStore "5A" ["photo1.jpg", "photo2.jpg"]
        xlsxResponse "1" "t").1.success = true ∧
    (processAttendanceC emptyStore "5A" ["photo1.jpg", "photo2.jpg"]
        xlsxResponse "1" "t").1.excelData = some xlsxResponse.body ∧
    xlsxResponse.body ≠ [] ∧
    (processAttendanceC emptyStore "5A" ["photo1.jpg", "photo2.jpg"]
        xlsxResponse "1" "t").2.attendance =
      Cell.stored (mkBackendCRecord "5A" ["photo1.jpg", "photo2.jpg"] "1" "t" ::
        getAttendanceHistory emptyStore none 20) ∧
    (mkBackendCRecord "5A" ["photo1.jpg", "photo2.jpg"] "1" "t").classroom =
      "5A" ∧
    (∀ l, emptyStore.attendance = Cell.stored l → l.length ≤ 20 →
      getAttendanceHistory emptyStore none 20 = l) :=
  c6_process_attendance_success emptyStore "5A" ["photo1.jpg", "photo2.jpg"]
    xlsxResponse "1" "t" ("5", "A") (by decide) (by decide) (by decide)
    (by decide) (by decide)

/-! ### History cap scenario (claim C1)

Bulk insertion of distinct records, to compare the mock cap (50, applied to
the raw stored list) with the backend cap (nominally 100, but applied after
a read-back that already truncated to the 20 most recent). -/

/-- The `i`-th bulk-inserted attendance record. -/
def mkRec (i : Nat) : AttendanceRecord :=
  { id := toString i, classroom := "5A", date := toString i, photoUri := none,
    photoUris := none, results := [], present := 0, absent := 0, total := 0 }

/-- The raw list persisted under the attendance key (empty if unreadable
or never written). -/
def storedHistory (st : Store) : List AttendanceRecord :=
  match st.attendance with
  | Cell.stored l => l
  | _ => []

/-- `n` successive backend-variant insertions starting from an empty store. -/
def insertBackend (n : Nat) : Store :=
  (List.range n).foldl
    (fun st i => storeAttendanceRecordLocally st (mkRec i)) emptyStore

/-- `n` successive mock-variant insertions starting from an empty store. -/
def insertMock (n : Nat) : Store :=
  (List.range n).foldl
    (fun st i => saveAttendanceRecordMock st (mkRec i)) emptyStore

/-- Claim C1 (refuting instance): after 51 mock insertions the persisted
history is exactly the 50 most recent records, most-recent-first, as the
claim states; but after 101 backend insertions the persisted history holds
21 records, not the claimed cap of 100. -/
theorem c1_history_cap_divergence :
    storedHistory (insertMock 51) =
      ((List.range 51).reverse.take 50).map mkRec ∧
    (storedHistory (insertBackend 101)).length = 21 ∧
    (storedHistory (insertBackend 101)).length ≠ 100 :=
  ⟨by decide, by decide, by decide⟩
